import Mathlib

/-!
Verification of the `mobileconf` payload-extraction pipeline (`src/main.rs`).

The document tree (`plist::Value`), its typed accessors, the two record
parsers (`MobileconfWifi::parse`, `MobileconfTLSCert::parse`), the
`partition_results` aggregator, and the extraction loop of `main` are
embedded below as executable Lean definitions.  A Rust panic (the
`.expect("")` calls on `as_dictionary`) is modelled by `Option.none` on the
outcome of a parser, and fatal `main`-level failures by `Option.none` on the
pipeline.  Byte values (Rust `u8`) are modelled as `Nat`, constrained to be
below 256 where it matters.
-/

set_option autoImplicit false
set_option linter.unusedVariables false

namespace Mobileconf

/-- The document tree of the `plist` crate: `plist::Value`.  Only the node
kinds that the program inspects are distinguished; every other variant
(boolean, date, integer, real, uid) is collapsed into `other`, which every
typed accessor rejects, exactly as the corresponding `as_*` methods do. -/
inductive Value : Type where
  | string : String → Value
  | array : List Value → Value
  | dict : List (String × Value) → Value
  | data : List Nat → Value
  | other : Value

/-- `plist::Value::as_string`: `Some` only on the `String` variant. -/
def Value.as_string : Value → Option String
  | Value.string s => some s
  | _ => none

/-- `plist::Value::as_dictionary`: `Some` only on the `Dictionary` variant. -/
def Value.as_dictionary : Value → Option (List (String × Value))
  | Value.dict d => some d
  | _ => none

/-- `plist::Value::as_array`: `Some` only on the `Array` variant. -/
def Value.as_array : Value → Option (List Value)
  | Value.array l => some l
  | _ => none

/-- `plist::Value::as_data`: `Some` only on the `Data` variant. -/
def Value.as_data : Value → Option (List Nat)
  | Value.data b => some b
  | _ => none

/-- `get_string` of `src/main.rs` (lines 52-58): look a key up in a
dictionary, failing with `missing key: k` when absent and with
`key not a string: k` when present but not a string node.  A `plist`
dictionary is modelled as an association list with first-match lookup. -/
def get_string (dict : List (String × Value)) (key : String) : Except String String :=
  match List.lookup key dict with
  | none => Except.error ("missing key: " ++ key)
  | some v =>
    match v.as_string with
    | none => Except.error ("key not a string: " ++ key)
    | some s => Except.ok s

/-- The record produced by the Wi-Fi parser (struct `MobileconfWifi`). -/
structure MobileconfWifi : Type where
  PayloadCertificateAnchorUUID : List String
  TLSTrustedServerNames : List String
  UserName : String
  UserPassword : String
  SSID : String
  TTLSInnerAuthentication : String

/-- The discriminator check of `MobileconfWifi::parse` (lines 66-70): the
entry is rejected exactly when `PayloadType` is present, is a string, and
differs from `com.apple.wifi.managed`. -/
def typeRejectsWifi (dict : List (String × Value)) : Bool :=
  match get_string dict "PayloadType" with
  | Except.ok typ => typ != "com.apple.wifi.managed"
  | Except.error _ => false

/-- The straight-line field extraction of `MobileconfWifi::parse` after the
discriminator check (lines 72-118), with the source's `?`-propagation spelled
out as matches, in the source's evaluation order. -/
def parseWifiFields (dict : List (String × Value)) : Except String MobileconfWifi :=
  match List.lookup "EAPClientConfiguration" dict with
  | none => Except.error "no EAPClientConfiguration"
  | some ev =>
    match ev.as_dictionary with
    | none => Except.error "EAPClientConfiguration not a dict"
    | some eap =>
      match List.lookup "PayloadCertificateAnchorUUID" eap with
      | none => Except.error "no PayloadCertificateAnchorUUID"
      | some av =>
        match av.as_array with
        | none => Except.error "expected array: PayloadCertificateAnchorUUID"
        | some arr =>
          let anchors := arr.filterMap Value.as_string
          match
            (match List.lookup "TLSTrustedServerNames" eap with
             | some tv =>
               match tv.as_array with
               | none => Except.error "expected array: TLSTrustedServerNames"
               | some tarr => Except.ok (tarr.filterMap Value.as_string)
             | none => Except.ok ([] : List String)) with
          | Except.error e => Except.error e
          | Except.ok tls =>
            match get_string eap "UserName" with
            | Except.error e => Except.error e
            | Except.ok userName =>
              match get_string eap "UserPassword" with
              | Except.error e => Except.error e
              | Except.ok userPassword =>
                match get_string dict "SSID_STR" with
                | Except.error e => Except.error e
                | Except.ok ssid =>
                  match get_string eap "TTLSInnerAuthentication" with
                  | Except.error e => Except.error e
                  | Except.ok ttls =>
                    Except.ok
                      { PayloadCertificateAnchorUUID := anchors
                        TLSTrustedServerNames := tls
                        UserName := userName
                        UserPassword := userPassword
                        SSID := ssid
                        TTLSInnerAuthentication := ttls }

/-- `MobileconfWifi::parse` (lines 63-118).  The leading
`v.as_dictionary().expect("")` panics on a non-dictionary entry; the panic is
modelled by `none`. -/
def MobileconfWifi.parse (v : Value) : Option (Except String MobileconfWifi) :=
  match v.as_dictionary with
  | none => none
  | some dict =>
    some (if typeRejectsWifi dict then Except.error "Not a wifi" else parseWifiFields dict)

/-- The record produced by the TLS-certificate parser
(struct `MobileconfTLSCert`); `PayloadContent` holds the base64 rendering of
the certificate bytes. -/
structure MobileconfTLSCert : Type where
  PayloadUUID : String
  PayloadContent : String

/-- The standard base64 alphabet, as used by `base64::encode`. -/
def b64chars : List Char :=
  "ABCDEFGHIJKLMNOPQRSTUVWXYZabcdefghijklmnopqrstuvwxyz0123456789+/".toList

/-- The character encoding a 6-bit value. -/
def b64char (n : Nat) : Char := b64chars.getD n 'A'

/-- The index of a character in the base64 alphabet, `none` for characters
outside it. -/
def b64inv (c : Char) : Option Nat := b64chars.findIdx? (fun x => x == c)

/-- `base64::encode` on a byte list, standard alphabet with `=` padding:
three bytes become four characters; a two-byte tail becomes three characters
and one `=`; a one-byte tail becomes two characters and two `=`. -/
def b64encodeList : List Nat → List Char
  | [] => []
  | [a] =>
    let n := a * 16
    [b64char (n / 64), b64char (n % 64), '=', '=']
  | [a, b] =>
    let n := (a * 256 + b) * 4
    [b64char (n / 4096), b64char (n / 64 % 64), b64char (n % 64), '=']
  | a :: b :: c :: rest =>
    let n := a * 65536 + b * 256 + c
    b64char (n / 262144) :: b64char (n / 4096 % 64) :: b64char (n / 64 % 64) ::
      b64char (n % 64) :: b64encodeList rest

/-- `base64::encode`, producing a string. -/
def b64encode (bytes : List Nat) : String := String.mk (b64encodeList bytes)

/-- Modelled from the spec: standard base64 decoding (the spec's round-trip
law speaks of "base64-decoding the contentBase64 field"; no decoder appears
in `src/`).  Four characters at a time; `=` padding closes the input. -/
def b64decodeList : List Char → Option (List Nat)
  | [] => some []
  | c1 :: c2 :: c3 :: c4 :: rest =>
    (b64inv c1).bind (fun d1 =>
      (b64inv c2).bind (fun d2 =>
        if c3 = '=' then
          if c4 = '=' then
            if rest = [] then some [d1 * 4 + d2 / 16] else none
          else none
        else
          (b64inv c3).bind (fun d3 =>
            if c4 = '=' then
              if rest = [] then
                some [(d1 * 4096 + d2 * 64 + d3) / 1024,
                      (d1 * 4096 + d2 * 64 + d3) / 4 % 256]
              else none
            else
              (b64inv c4).bind (fun d4 =>
                (b64decodeList rest).map (fun bs =>
                  (d1 * 262144 + d2 * 4096 + d3 * 64 + d4) / 65536 ::
                    (d1 * 262144 + d2 * 4096 + d3 * 64 + d4) / 256 % 256 ::
                    (d1 * 262144 + d2 * 4096 + d3 * 64 + d4) % 256 :: bs)))))
  | _ => none

/-- Modelled from the spec: base64 decoding of a string. -/
def b64decode (s : String) : Option (List Nat) := b64decodeList s.toList

/-- The discriminator check of `MobileconfTLSCert::parse` (lines 134-140):
the entry is rejected exactly when `PayloadType` is present, is a string, and
is neither `com.apple.security.pem` nor `com.apple.security.root`. -/
def typeRejectsTLS (dict : List (String × Value)) : Bool :=
  match get_string dict "PayloadType" with
  | Except.ok typ =>
    !(typ == "com.apple.security.pem" || typ == "com.apple.security.root")
  | Except.error _ => false

/-- The straight-line field extraction of `MobileconfTLSCert::parse` after
the discriminator check (lines 142-155). -/
def parseTLSFields (dict : List (String × Value)) : Except String MobileconfTLSCert :=
  match get_string dict "PayloadUUID" with
  | Except.error e => Except.error e
  | Except.ok uuid =>
    match List.lookup "PayloadContent" dict with
    | none => Except.error "missing key: PayloadContent"
    | some dv =>
      match dv.as_data with
      | none => Except.error "expected data"
      | some bytes =>
        Except.ok { PayloadUUID := uuid, PayloadContent := b64encode bytes }

/-- `MobileconfTLSCert::parse` (lines 131-156).  As in the Wi-Fi parser, the
leading `.expect("")` panic on a non-dictionary entry is modelled by
`none`. -/
def MobileconfTLSCert.parse (v : Value) : Option (Except String MobileconfTLSCert) :=
  match v.as_dictionary with
  | none => none
  | some dict =>
    some (if typeRejectsTLS dict then Except.error "Not a TLS certificate"
          else parseTLSFields dict)

/-- `partition_results` (lines 159-172): split a sequence of results into the
list of successes and the list of errors, each in input order. -/
def partition_results {A E : Type} : List (Except E A) → List A × List E
  | [] => ([], [])
  | x :: rest =>
    let p := partition_results rest
    match x with
    | Except.ok a => (a :: p.1, p.2)
    | Except.error e => (p.1, e :: p.2)

/-- A run of the parsing iterator of `main`: a `none` anywhere is a panic
that aborts the whole run with no outcome sequence; otherwise all outcomes
are collected in order. -/
def sequenceOutcomes {A : Type} : List (Option A) → Option (List A)
  | [] => some []
  | none :: _ => none
  | some x :: rest => (sequenceOutcomes rest).map (fun xs => x :: xs)

/-- One parser pass of `main`: map every payload entry through a record
parser and partition the outcomes; a panic anywhere gives `none`. -/
def extractWith {A E : Type} (f : Value → Option (Except E A))
    (contents : List Value) : Option (List A × List E) :=
  (sequenceOutcomes (contents.map f)).map partition_results

/-- The Wi-Fi pass of `main` (lines 204-207): map every payload entry through
`MobileconfWifi::parse` and partition the outcomes. -/
def extractWifis (contents : List Value) :
    Option (List MobileconfWifi × List String) :=
  extractWith MobileconfWifi.parse contents

/-- The TLS pass of `main` (lines 210-213). -/
def extractCerts (contents : List Value) :
    Option (List MobileconfTLSCert × List String) :=
  extractWith MobileconfTLSCert.parse contents

/-- The root-document access of `main` (lines 197-202): the root must be a
dictionary whose `PayloadContent` key holds an array. -/
def getContents (plist : Value) : Option (List Value) :=
  (plist.as_dictionary.bind (fun d => List.lookup "PayloadContent" d)).bind
    Value.as_array

/-- The string elements of a node list, in their original order (the
reference sequence the lossy string-array extraction is compared against). -/
def stringElems : List Value → List String
  | [] => []
  | Value.string s :: rest => s :: stringElems rest
  | _ :: rest => stringElems rest

/-! ## Base64 lemmas -/

/-- Decoding a base64 digit character recovers the digit. -/
theorem b64inv_b64char : ∀ d : Nat, d < 64 → b64inv (b64char d) = some d := by
  decide

/-- A base64 digit character is never the padding character. -/
theorem b64char_ne_pad : ∀ d : Nat, d < 64 → b64char d ≠ '=' := by
  decide

/-- Base64 round trip on byte lists: decoding an encoded list of bytes gives
back exactly the bytes. -/
theorem b64_roundtrip : ∀ l : List Nat, (∀ x ∈ l, x < 256) →
    b64decodeList (b64encodeList l) = some l
  | [], _ => rfl
  | [a], h => by
    have ha : a < 256 := h a (by simp)
    simp only [b64encodeList, b64decodeList]
    rw [b64inv_b64char (a * 16 / 64) (by omega), b64inv_b64char (a * 16 % 64) (by omega)]
    simp only [Option.some_bind, if_pos rfl]
    have : a * 16 / 64 * 4 + a * 16 % 64 / 16 = a := by omega
    simp [this]
  | [a, b], h => by
    have ha : a < 256 := h a (by simp)
    have hb : b < 256 := h b (by simp)
    simp only [b64encodeList, b64decodeList]
    rw [b64inv_b64char ((a * 256 + b) * 4 / 4096) (by omega),
      b64inv_b64char ((a * 256 + b) * 4 / 64 % 64) (by omega)]
    simp only [Option.some_bind]
    rw [if_neg (b64char_ne_pad ((a * 256 + b) * 4 % 64) (by omega))]
    rw [b64inv_b64char ((a * 256 + b) * 4 % 64) (by omega)]
    simp only [Option.some_bind, if_pos rfl]
    have h1 : (a * 256 + b) * 4 / 4096 * 4096 + (a * 256 + b) * 4 / 64 % 64 * 64 +
        (a * 256 + b) * 4 % 64 = (a * 256 + b) * 4 := by omega
    rw [h1]
    have h2 : (a * 256 + b) * 4 / 1024 = a := by omega
    have h3 : (a * 256 + b) * 4 / 4 % 256 = b := by omega
    rw [h2, h3]
    simp
  | a :: b :: c :: rest, h => by
    have ha : a < 256 := h a (by simp)
    have hb : b < 256 := h b (by simp)
    have hc : c < 256 := h c (by simp)
    have ih : b64decodeList (b64encodeList rest) = some rest :=
      b64_roundtrip rest (fun x hx => h x (by simp [hx]))
    simp only [b64encodeList, b64decodeList]
    rw [b64inv_b64char ((a * 65536 + b * 256 + c) / 262144) (by omega),
      b64inv_b64char ((a * 65536 + b * 256 + c) / 4096 % 64) (by omega)]
    simp only [Option.some_bind]
    rw [if_neg (b64char_ne_pad ((a * 65536 + b * 256 + c) / 64 % 64) (by omega))]
    rw [b64inv_b64char ((a * 65536 + b * 256 + c) / 64 % 64) (by omega)]
    simp only [Option.some_bind]
    rw [if_neg (b64char_ne_pad ((a * 65536 + b * 256 + c) % 64) (by omega))]
    rw [b64inv_b64char ((a * 65536 + b * 256 + c) % 64) (by omega)]
    simp only [Option.some_bind]
    rw [ih]
    simp only [Option.map_some']
    have h1 : (a * 65536 + b * 256 + c) / 262144 * 262144 +
        (a * 65536 + b * 256 + c) / 4096 % 64 * 4096 +
        (a * 65536 + b * 256 + c) / 64 % 64 * 64 +
        (a * 65536 + b * 256 + c) % 64 = a * 65536 + b * 256 + c := by omega
    rw [h1]
    have h2 : (a * 65536 + b * 256 + c) / 65536 = a := by omega
    have h3 : (a * 65536 + b * 256 + c) / 256 % 256 = b := by omega
    have h4 : (a * 65536 + b * 256 + c) % 256 = c := by omega
    rw [h2, h3, h4]

/-! ## Aggregation lemmas -/

/-- The success component of an outcome. -/
def okPart {A E : Type} : Except E A → Option A
  | Except.ok a => some a
  | Except.error _ => none

/-- The error component of an outcome. -/
def errPart {A E : Type} : Except E A → Option E
  | Except.ok _ => none
  | Except.error e => some e

/-- `partition_results` is exactly the pair of order-preserving projections
of the outcome sequence. -/
theorem partition_results_eq {A E : Type} (l : List (Except E A)) :
    partition_results l = (l.filterMap okPart, l.filterMap errPart) := by
  induction l with
  | nil => rfl
  | cons x rest ih =>
    cases x <;> simp [partition_results, ih, okPart, errPart, List.filterMap_cons]

/-- Every outcome lands in exactly one of the two partitions: the lengths of
the partitions add up to the length of the outcome sequence. -/
theorem partition_results_length {A E : Type} (l : List (Except E A)) :
    (partition_results l).1.length + (partition_results l).2.length = l.length := by
  induction l with
  | nil => rfl
  | cons x rest ih =>
    cases x <;> simp [partition_results] <;> omega

/-- A parser pass on the empty payload list. -/
theorem extractWith_nil {A E : Type} (f : Value → Option (Except E A)) :
    extractWith f [] = some ([], []) := rfl

/-- A parser pass where the head entry parses successfully. -/
theorem extractWith_cons_ok {A E : Type} (f : Value → Option (Except E A))
    (v : Value) (a : A) (rest : List Value) (p : List A × List E)
    (hv : f v = some (Except.ok a)) (hrest : extractWith f rest = some p) :
    extractWith f (v :: rest) = some (a :: p.1, p.2) := by
  obtain ⟨l, hl, hpart⟩ := Option.map_eq_some'.mp hrest
  simp only [extractWith, List.map_cons, sequenceOutcomes, hv, hl,
    Option.map_some', Option.some_bind, partition_results]
  rw [hpart]

/-- A parser pass where the head entry fails with a captured error. -/
theorem extractWith_cons_err {A E : Type} (f : Value → Option (Except E A))
    (v : Value) (e : E) (rest : List Value) (p : List A × List E)
    (hv : f v = some (Except.error e)) (hrest : extractWith f rest = some p) :
    extractWith f (v :: rest) = some (p.1, e :: p.2) := by
  obtain ⟨l, hl, hpart⟩ := Option.map_eq_some'.mp hrest
  simp only [extractWith, List.map_cons, sequenceOutcomes, hv, hl,
    Option.map_some', Option.some_bind, partition_results]
  rw [hpart]

/-- A parser pass where the head entry panics: the whole run aborts. -/
theorem extractWith_cons_none {A E : Type} (f : Value → Option (Except E A))
    (v : Value) (rest : List Value) (hv : f v = none) :
    extractWith f (v :: rest) = none := by
  simp [extractWith, sequenceOutcomes, hv]

/-- When no entry panics, a parser pass produces exactly one outcome per
entry: it returns partitions whose lengths add up to the entry count. -/
theorem extractWith_total {A E : Type} (f : Value → Option (Except E A))
    (contents : List Value) (h : ∀ v ∈ contents, (f v).isSome) :
    ∃ p : List A × List E, extractWith f contents = some p ∧
      p.1.length + p.2.length = contents.length := by
  induction contents with
  | nil => exact ⟨([], []), rfl, rfl⟩
  | cons v rest ih =>
    obtain ⟨p, hp, hlen⟩ := ih (fun x hx => h x (List.mem_cons_of_mem v hx))
    obtain ⟨r, hr⟩ := Option.isSome_iff_exists.mp (h v (List.mem_cons_self v rest))
    cases r with
    | ok a =>
      exact ⟨(a :: p.1, p.2), extractWith_cons_ok f v a rest p hr hp, by
        simp [List.length_cons]; omega⟩
    | error e =>
      exact ⟨(p.1, e :: p.2), extractWith_cons_err f v e rest p hr hp, by
        simp [List.length_cons]; omega⟩

/-- The string elements of a node list are exactly what `filter_map
Value::as_string` collects. -/
theorem stringElems_eq_filterMap (l : List Value) :
    l.filterMap Value.as_string = stringElems l := by
  induction l with
  | nil => rfl
  | cons v rest ih =>
    cases v <;> simp [stringElems, Value.as_string, List.filterMap_cons, ih]

/-! ## Parser lemmas -/

/-- On a dictionary entry, the Wi-Fi parser never panics: it returns the
discriminator check followed by the field extraction. -/
theorem wifi_parse_dict (d : List (String × Value)) :
    MobileconfWifi.parse (Value.dict d) =
      some (if typeRejectsWifi d then Except.error "Not a wifi"
            else parseWifiFields d) := rfl

/-- On a dictionary entry, the TLS parser never panics. -/
theorem tls_parse_dict (d : List (String × Value)) :
    MobileconfTLSCert.parse (Value.dict d) =
      some (if typeRejectsTLS d then Except.error "Not a TLS certificate"
            else parseTLSFields d) := rfl

/-- An absent discriminator never rejects the Wi-Fi parse. -/
theorem typeRejectsWifi_absent (d : List (String × Value))
    (h : List.lookup "PayloadType" d = none) : typeRejectsWifi d = false := by
  simp [typeRejectsWifi, get_string, h]

/-- A present but non-string discriminator never rejects the Wi-Fi parse. -/
theorem typeRejectsWifi_nonstring (d : List (String × Value)) (pv : Value)
    (h : List.lookup "PayloadType" d = some pv) (hs : pv.as_string = none) :
    typeRejectsWifi d = false := by
  simp [typeRejectsWifi, get_string, h, hs]

/-- A present but non-string discriminator never rejects the TLS parse. -/
theorem typeRejectsTLS_nonstring (d : List (String × Value)) (pv : Value)
    (h : List.lookup "PayloadType" d = some pv) (hs : pv.as_string = none) :
    typeRejectsTLS d = false := by
  simp [typeRejectsTLS, get_string, h, hs]

/-- A string discriminator other than `com.apple.wifi.managed` rejects the
Wi-Fi parse. -/
theorem typeRejectsWifi_other (d : List (String × Value)) (s : String)
    (h : List.lookup "PayloadType" d = some (Value.string s))
    (hs : s ≠ "com.apple.wifi.managed") : typeRejectsWifi d = true := by
  simp [typeRejectsWifi, get_string, h, Value.as_string, hs]

/-- Workhorse for the success path of the Wi-Fi field extraction, with the
`TLSTrustedServerNames` key present as an array. -/
theorem parseWifiFields_ok (dict eap : List (String × Value))
    (arr tarr : List Value) (un up ss tt : String)
    (heap : List.lookup "EAPClientConfiguration" dict = some (Value.dict eap))
    (hanch : List.lookup "PayloadCertificateAnchorUUID" eap = some (Value.array arr))
    (htls : List.lookup "TLSTrustedServerNames" eap = some (Value.array tarr))
    (hun : get_string eap "UserName" = Except.ok un)
    (hup : get_string eap "UserPassword" = Except.ok up)
    (hss : get_string dict "SSID_STR" = Except.ok ss)
    (htt : get_string eap "TTLSInnerAuthentication" = Except.ok tt) :
    parseWifiFields dict = Except.ok
      { PayloadCertificateAnchorUUID := arr.filterMap Value.as_string
        TLSTrustedServerNames := tarr.filterMap Value.as_string
        UserName := un
        UserPassword := up
        SSID := ss
        TTLSInnerAuthentication := tt } := by
  simp [parseWifiFields, heap, hanch, htls, hun, hup, hss, htt,
    Value.as_dictionary, Value.as_array]

/-- Workhorse for the success path of the Wi-Fi field extraction, with the
`TLSTrustedServerNames` key absent: the field defaults to the empty list. -/
theorem parseWifiFields_ok_noTLS (dict eap : List (String × Value))
    (arr : List Value) (un up ss tt : String)
    (heap : List.lookup "EAPClientConfiguration" dict = some (Value.dict eap))
    (hanch : List.lookup "PayloadCertificateAnchorUUID" eap = some (Value.array arr))
    (htls : List.lookup "TLSTrustedServerNames" eap = none)
    (hun : get_string eap "UserName" = Except.ok un)
    (hup : get_string eap "UserPassword" = Except.ok up)
    (hss : get_string dict "SSID_STR" = Except.ok ss)
    (htt : get_string eap "TTLSInnerAuthentication" = Except.ok tt) :
    parseWifiFields dict = Except.ok
      { PayloadCertificateAnchorUUID := arr.filterMap Value.as_string
        TLSTrustedServerNames := []
        UserName := un
        UserPassword := up
        SSID := ss
        TTLSInnerAuthentication := tt } := by
  simp [parseWifiFields, heap, hanch, htls, hun, hup, hss, htt,
    Value.as_dictionary, Value.as_array]

/-- When every field up to it is valid but the `UserName` key is absent from
the EAP dictionary, the Wi-Fi field extraction fails with exactly the
missing-field error naming `UserName`. -/
theorem parseWifiFields_noUserName (dict eap : List (String × Value))
    (arr : List Value)
    (heap : List.lookup "EAPClientConfiguration" dict = some (Value.dict eap))
    (hanch : List.lookup "PayloadCertificateAnchorUUID" eap = some (Value.array arr))
    (htls : List.lookup "TLSTrustedServerNames" eap = none ∨
      ∃ tarr, List.lookup "TLSTrustedServerNames" eap = some (Value.array tarr))
    (hun : List.lookup "UserName" eap = none) :
    parseWifiFields dict = Except.error "missing key: UserName" := by
  rcases htls with htls | ⟨tarr, htls⟩ <;>
    simp [parseWifiFields, heap, hanch, htls, get_string, hun,
      Value.as_dictionary, Value.as_array]

/-- The success projection of the Wi-Fi parser on one entry. -/
def wifiOkResult (v : Value) : Option MobileconfWifi :=
  match MobileconfWifi.parse v with
  | some (Except.ok w) => some w
  | _ => none

/-- An entry satisfies the Wi-Fi schema when the Wi-Fi parser succeeds on
it. -/
def wifiSchemaB (v : Value) : Bool := (wifiOkResult v).isSome

/-- An entry is a structurally valid dictionary with an unrelated,
unrecognized string discriminator: `PayloadType` is present, is a string,
and is none of the three type strings any parser recognizes. -/
def unrelatedTypeB (v : Value) : Bool :=
  match v with
  | Value.dict d =>
    match List.lookup "PayloadType" d with
    | some (Value.string s) =>
      !(s == "com.apple.wifi.managed" || s == "com.apple.security.pem" ||
        s == "com.apple.security.root")
    | _ => false
  | _ => false

/-- The Wi-Fi parser classifies an unrelated-discriminator entry with
exactly its `NotApplicable` error, `Not a wifi`. -/
theorem wifi_parse_unrelated (v : Value) (h : unrelatedTypeB v = true) :
    MobileconfWifi.parse v = some (Except.error "Not a wifi") := by
  cases v with
  | dict d =>
    rw [wifi_parse_dict]
    cases hpt : List.lookup "PayloadType" d with
    | none => simp [unrelatedTypeB, hpt] at h
    | some pv =>
      cases pv with
      | string s =>
        simp only [unrelatedTypeB, hpt, Bool.not_eq_true'] at h
        rw [typeRejectsWifi_other d s hpt (by
          intro hcon
          simp [hcon] at h)]
        simp
      | array l => simp [unrelatedTypeB, hpt] at h
      | dict d2 => simp [unrelatedTypeB, hpt] at h
      | data b => simp [unrelatedTypeB, hpt] at h
      | other => simp [unrelatedTypeB, hpt] at h
  | string s => simp [unrelatedTypeB] at h
  | array l => simp [unrelatedTypeB] at h
  | data b => simp [unrelatedTypeB] at h
  | other => simp [unrelatedTypeB] at h

/-- A schema-satisfying entry yields its record through the success
projection. -/
theorem wifi_parse_of_schema (v : Value) (h : wifiSchemaB v = true) :
    ∃ w, MobileconfWifi.parse v = some (Except.ok w) ∧ wifiOkResult v = some w := by
  unfold wifiSchemaB at h
  obtain ⟨w, hw⟩ := Option.isSome_iff_exists.mp h
  refine ⟨w, ?_, hw⟩
  unfold wifiOkResult at hw
  cases hp : MobileconfWifi.parse v with
  | none => rw [hp] at hw; simp at hw
  | some r =>
    cases r with
    | ok w2 => rw [hp] at hw; simp at hw; rw [hw]
    | error e => rw [hp] at hw; simp at hw

/-- The number of successes the Wi-Fi pass collects is the number of
schema-satisfying entries. -/
theorem length_filterMap_wifiOk (l : List Value) :
    (l.filterMap wifiOkResult).length = l.countP wifiSchemaB := by
  induction l with
  | nil => rfl
  | cons v rest ih =>
    cases hv : wifiOkResult v <;>
      simp [List.filterMap_cons, List.countP_cons, wifiSchemaB, hv, ih]

/-- A captured parse error contributes nothing to the success projection. -/
theorem wifiOkResult_of_err (v : Value) (e : String)
    (h : MobileconfWifi.parse v = some (Except.error e)) : wifiOkResult v = none := by
  unfold wifiOkResult
  rw [h]

/-- The Wi-Fi pass on a payload list whose entries each either satisfy the
Wi-Fi schema or carry an unrelated string discriminator: the successes are
the schema entries' records in order, and the errors are one `Not a wifi`
per unrelated entry. -/
theorem extractWifis_classified (contents : List Value)
    (h : ∀ v ∈ contents, wifiSchemaB v = true ∨ unrelatedTypeB v = true) :
    extractWifis contents =
      some (contents.filterMap wifiOkResult,
        List.replicate (contents.countP unrelatedTypeB) "Not a wifi") := by
  induction contents with
  | nil => rfl
  | cons v rest ih =>
    have hrest := ih (fun x hx => h x (List.mem_cons_of_mem v hx))
    rcases h v (List.mem_cons_self v rest) with hv | hv
    · obtain ⟨w, hw, hok⟩ := wifi_parse_of_schema v hv
      have hnotun : unrelatedTypeB v = false := by
        cases hun : unrelatedTypeB v with
        | false => rfl
        | true =>
          rw [wifi_parse_unrelated v hun] at hw
          simp at hw
      have := extractWith_cons_ok MobileconfWifi.parse v w rest _ hw hrest
      rw [show extractWifis (v :: rest) =
        extractWith MobileconfWifi.parse (v :: rest) from rfl, this]
      simp [List.filterMap_cons, hok, List.countP_cons, hnotun]
    · have hw := wifi_parse_unrelated v hv
      have hnone := wifiOkResult_of_err v "Not a wifi" hw
      have := extractWith_cons_err MobileconfWifi.parse v "Not a wifi" rest _ hw hrest
      rw [show extractWifis (v :: rest) =
        extractWith MobileconfWifi.parse (v :: rest) from rfl, this]
      simp [List.filterMap_cons, hnone, List.countP_cons, hv, List.replicate_succ]

/-- Workhorse for the success path of the TLS field extraction. -/
theorem parseTLSFields_ok (dict : List (String × Value)) (uuid : String)
    (b : List Nat)
    (huuid : get_string dict "PayloadUUID" = Except.ok uuid)
    (hdata : List.lookup "PayloadContent" dict = some (Value.data b)) :
    parseTLSFields dict =
      Except.ok { PayloadUUID := uuid, PayloadContent := b64encode b } := by
  simp [parseTLSFields, huuid, hdata, Value.as_data]

/-- Base64 round trip at the string level. -/
theorem b64decode_b64encode (b : List Nat) (h : ∀ x ∈ b, x < 256) :
    b64decode (b64encode b) = some b :=
  b64_roundtrip b h

/-! ## Concrete payload entries used by the witnesses -/

/-- A fully valid Wi-Fi EAP dictionary; both string arrays contain
non-string elements to exercise the lossy extraction. -/
def eapFull : List (String × Value) :=
  [("PayloadCertificateAnchorUUID",
      Value.array [Value.string "U1", Value.other, Value.string "U2"]),
   ("TLSTrustedServerNames",
      Value.array [Value.string "srv1", Value.data [7], Value.string "srv2"]),
   ("UserName", Value.string "bob"),
   ("UserPassword", Value.string "pw"),
   ("TTLSInnerAuthentication", Value.string "PAP")]

/-- A fully valid Wi-Fi payload entry. -/
def wifiEntryFull : List (String × Value) :=
  [("PayloadType", Value.string "com.apple.wifi.managed"),
   ("EAPClientConfiguration", Value.dict eapFull),
   ("SSID_STR", Value.string "MySSID")]

/-- A Wi-Fi EAP dictionary with no `TLSTrustedServerNames` key. -/
def eapNoTLS : List (String × Value) :=
  [("PayloadCertificateAnchorUUID", Value.array [Value.string "U1"]),
   ("UserName", Value.string "bob"),
   ("UserPassword", Value.string "pw"),
   ("TTLSInnerAuthentication", Value.string "PAP")]

/-- A Wi-Fi payload entry with no `TLSTrustedServerNames` key. -/
def wifiEntryNoTLS : List (String × Value) :=
  [("PayloadType", Value.string "com.apple.wifi.managed"),
   ("EAPClientConfiguration", Value.dict eapNoTLS),
   ("SSID_STR", Value.string "MySSID")]

/-- A Wi-Fi EAP dictionary with no `UserName` key but every other field
valid. -/
def eapNoUser : List (String × Value) :=
  [("PayloadCertificateAnchorUUID", Value.array [Value.string "U1"]),
   ("TLSTrustedServerNames", Value.array [Value.string "srv1"]),
   ("UserPassword", Value.string "pw"),
   ("TTLSInnerAuthentication", Value.string "PAP")]

/-- An otherwise-valid Wi-Fi payload entry missing `UserName`. -/
def wifiEntryNoUser : List (String × Value) :=
  [("PayloadType", Value.string "com.apple.wifi.managed"),
   ("EAPClientConfiguration", Value.dict eapNoUser),
   ("SSID_STR", Value.string "MySSID")]

/-- A Wi-Fi payload entry with no `PayloadType` discriminator at all. -/
def wifiEntryNoType : List (String × Value) :=
  [("EAPClientConfiguration", Value.dict eapNoTLS),
   ("SSID_STR", Value.string "MySSID")]

/-- A payload entry whose `PayloadType` is present but not a string. -/
def entryNonStringType : List (String × Value) :=
  [("PayloadType", Value.array []),
   ("SSID_STR", Value.string "MySSID")]

/-- A valid TLS-certificate payload entry with binary content bytes. -/
def certEntry : List (String × Value) :=
  [("PayloadType", Value.string "com.apple.security.pem"),
   ("PayloadUUID", Value.string "uuid-1"),
   ("PayloadContent", Value.data [1, 2, 3, 255, 0])]

/-- A payload entry that is a dictionary with an unrelated, unrecognized
discriminator. -/
def unrelatedEntry : List (String × Value) :=
  [("PayloadType", Value.string "com.example.unknown")]

/-! ## Claims -/

/-- C1 (amended): for every root document whose `PayloadContent` array has
`k` entries, *each of which is a dictionary*, each parser pass of the
extraction step produces exactly one outcome (a record or an error) per
entry, none skipped or duplicated: the success and error partitions of the
pass total `k`.  (As stated, the claim is refuted by
`C1_counterexample`: a non-dictionary entry makes both passes panic,
producing no outcome sequence at all.) -/
theorem C1_outcome_per_entry (root : Value) (contents : List Value)
    (hroot : getContents root = some contents)
    (hdict : ∀ v ∈ contents, ∃ d, v = Value.dict d) :
    (∃ p : List MobileconfWifi × List String,
        extractWifis contents = some p ∧
        p.1.length + p.2.length = contents.length) ∧
    (∃ p : List MobileconfTLSCert × List String,
        extractCerts contents = some p ∧
        p.1.length + p.2.length = contents.length) := by
  constructor
  · exact extractWith_total MobileconfWifi.parse contents (by
      intro v hv
      obtain ⟨d, rfl⟩ := hdict v hv
      rw [wifi_parse_dict]
      rfl)
  · exact extractWith_total MobileconfTLSCert.parse contents (by
      intro v hv
      obtain ⟨d, rfl⟩ := hdict v hv
      rw [tls_parse_dict]
      rfl)

/-- Witness for C1: a concrete two-entry document. -/
theorem C1_outcome_per_entry_witness :
    (∃ p : List MobileconfWifi × List String,
        extractWifis [Value.dict wifiEntryFull, Value.dict unrelatedEntry] = some p ∧
        p.1.length + p.2.length = 2) ∧
    (∃ p : List MobileconfTLSCert × List String,
        extractCerts [Value.dict wifiEntryFull, Value.dict unrelatedEntry] = some p ∧
        p.1.length + p.2.length = 2) :=
  C1_outcome_per_entry
    (Value.dict [("PayloadContent",
      Value.array [Value.dict wifiEntryFull, Value.dict unrelatedEntry])])
    [Value.dict wifiEntryFull, Value.dict unrelatedEntry]
    rfl
    (by
      intro v hv
      simp only [List.mem_cons, List.mem_singleton, List.not_mem_nil, or_false] at hv
      rcases hv with rfl | rfl
      · exact ⟨wifiEntryFull, rfl⟩
      · exact ⟨unrelatedEntry, rfl⟩)

/-- Counterexample to C1 as stated: a root document whose payload array has
one entry, a string rather than a dictionary; both parser passes panic and
produce no outcome sequence, so no partition pair with total 1 exists. -/
theorem C1_counterexample :
    getContents (Value.dict [("PayloadContent",
        Value.array [Value.string "notdict"])]) = some [Value.string "notdict"] ∧
    extractWifis [Value.string "notdict"] = none ∧
    extractCerts [Value.string "notdict"] = none :=
  ⟨rfl, rfl, rfl⟩

/-- C2: on a payload list whose entries each either satisfy the Wi-Fi schema
or are dictionaries carrying an unrelated, unrecognized string
discriminator, the Wi-Fi pass yields exactly the schema entries' records (in
order) as successes, and one `Not a wifi` error (the parser's
`NotApplicable` class) per unrelated entry: `N` records and `M` errors, each
list order-preserving. -/
theorem C2_wifi_pass_classified (contents : List Value)
    (h : ∀ v ∈ contents, wifiSchemaB v = true ∨ unrelatedTypeB v = true) :
    extractWifis contents =
      some (contents.filterMap wifiOkResult,
        List.replicate (contents.countP unrelatedTypeB) "Not a wifi") ∧
    (contents.filterMap wifiOkResult).length = contents.countP wifiSchemaB :=
  ⟨extractWifis_classified contents h, length_filterMap_wifiOk contents⟩

/-- Witness for C2: one schema-satisfying entry and one unrelated entry. -/
theorem C2_wifi_pass_classified_witness :
    extractWifis [Value.dict wifiEntryFull, Value.dict unrelatedEntry] =
      some (([Value.dict wifiEntryFull, Value.dict unrelatedEntry].filterMap
          wifiOkResult),
        List.replicate
          ([Value.dict wifiEntryFull, Value.dict unrelatedEntry].countP
            unrelatedTypeB) "Not a wifi") ∧
    (([Value.dict wifiEntryFull, Value.dict unrelatedEntry].filterMap
        wifiOkResult)).length =
      [Value.dict wifiEntryFull, Value.dict unrelatedEntry].countP wifiSchemaB :=
  C2_wifi_pass_classified [Value.dict wifiEntryFull, Value.dict unrelatedEntry]
    (by decide)

/-- C3 (amended): for every payload entry that *is* a dictionary, each
record parser returns its outcome as a value (success or captured error) and
never panics.  (As stated — including non-dictionary entries — the claim is
refuted by `C3_counterexample`: the parsers' `.expect("")` panics on a
non-dictionary entry.) -/
theorem C3_errors_returned_as_data (d : List (String × Value)) :
    (∃ r, MobileconfWifi.parse (Value.dict d) = some r) ∧
    (∃ r, MobileconfTLSCert.parse (Value.dict d) = some r) :=
  ⟨⟨_, rfl⟩, ⟨_, rfl⟩⟩

/-- Counterexample to C3 as stated: on a payload entry that is not a
dictionary, both parsers panic (no error value is returned). -/
theorem C3_counterexample :
    MobileconfWifi.parse (Value.string "notdict") = none ∧
    MobileconfTLSCert.parse (Value.array []) = none :=
  ⟨rfl, rfl⟩

/-- C4: on an entry satisfying the Wi-Fi schema in every respect except that
the `UserName` key is absent from the EAP dictionary, the Wi-Fi parser's
outcome is exactly the missing-field error naming `UserName`. -/
theorem C4_missing_username (d eap : List (String × Value)) (arr : List Value)
    (up ss tt : String)
    (hty : typeRejectsWifi d = false)
    (heap : List.lookup "EAPClientConfiguration" d = some (Value.dict eap))
    (hanch : List.lookup "PayloadCertificateAnchorUUID" eap = some (Value.array arr))
    (htls : List.lookup "TLSTrustedServerNames" eap = none ∨
      ∃ tarr, List.lookup "TLSTrustedServerNames" eap = some (Value.array tarr))
    (hun : List.lookup "UserName" eap = none)
    (hup : get_string eap "UserPassword" = Except.ok up)
    (hss : get_string d "SSID_STR" = Except.ok ss)
    (htt : get_string eap "TTLSInnerAuthentication" = Except.ok tt) :
    MobileconfWifi.parse (Value.dict d) =
      some (Except.error "missing key: UserName") := by
  rw [wifi_parse_dict, hty]
  rw [parseWifiFields_noUserName d eap arr heap hanch htls hun]
  simp

/-- Witness for C4. -/
theorem C4_missing_username_witness :
    MobileconfWifi.parse (Value.dict wifiEntryNoUser) =
      some (Except.error "missing key: UserName") :=
  C4_missing_username wifiEntryNoUser eapNoUser [Value.string "U1"] "pw" "MySSID"
    "PAP" rfl rfl rfl (Or.inr ⟨[Value.string "srv1"], rfl⟩) rfl rfl rfl rfl

/-- C5: on a Wi-Fi entry whose EAP dictionary has no `TLSTrustedServerNames`
key but is otherwise valid, parsing succeeds and the record's trusted server
names are the empty sequence. -/
theorem C5_absent_tls_names_default (d eap : List (String × Value))
    (arr : List Value) (un up ss tt : String)
    (hty : typeRejectsWifi d = false)
    (heap : List.lookup "EAPClientConfiguration" d = some (Value.dict eap))
    (hanch : List.lookup "PayloadCertificateAnchorUUID" eap = some (Value.array arr))
    (htls : List.lookup "TLSTrustedServerNames" eap = none)
    (hun : get_string eap "UserName" = Except.ok un)
    (hup : get_string eap "UserPassword" = Except.ok up)
    (hss : get_string d "SSID_STR" = Except.ok ss)
    (htt : get_string eap "TTLSInnerAuthentication" = Except.ok tt) :
    ∃ w, MobileconfWifi.parse (Value.dict d) = some (Except.ok w) ∧
      w.TLSTrustedServerNames = [] := by
  refine ⟨{ PayloadCertificateAnchorUUID := arr.filterMap Value.as_string
            TLSTrustedServerNames := []
            UserName := un
            UserPassword := up
            SSID := ss
            TTLSInnerAuthentication := tt }, ?_, rfl⟩
  rw [wifi_parse_dict, hty]
  rw [parseWifiFields_ok_noTLS d eap arr un up ss tt heap hanch htls hun hup hss htt]
  simp

/-- Witness for C5. -/
theorem C5_absent_tls_names_default_witness :
    ∃ w, MobileconfWifi.parse (Value.dict wifiEntryNoTLS) = some (Except.ok w) ∧
      w.TLSTrustedServerNames = [] :=
  C5_absent_tls_names_default wifiEntryNoTLS eapNoTLS [Value.string "U1"]
    "bob" "pw" "MySSID" "PAP" rfl rfl rfl rfl rfl rfl rfl rfl

/-- C6: both string-array fields of the Wi-Fi parser are extracted lossily:
for arbitrary array contents, elements that are not string nodes are
silently dropped rather than failing the parse, and each resulting sequence
is exactly the string elements of its array in their original order. -/
theorem C6_lossy_string_arrays (d eap : List (String × Value))
    (arr tarr : List Value) (un up ss tt : String)
    (hty : typeRejectsWifi d = false)
    (heap : List.lookup "EAPClientConfiguration" d = some (Value.dict eap))
    (hanch : List.lookup "PayloadCertificateAnchorUUID" eap = some (Value.array arr))
    (htls : List.lookup "TLSTrustedServerNames" eap = some (Value.array tarr))
    (hun : get_string eap "UserName" = Except.ok un)
    (hup : get_string eap "UserPassword" = Except.ok up)
    (hss : get_string d "SSID_STR" = Except.ok ss)
    (htt : get_string eap "TTLSInnerAuthentication" = Except.ok tt) :
    MobileconfWifi.parse (Value.dict d) = some (Except.ok
      { PayloadCertificateAnchorUUID := stringElems arr
        TLSTrustedServerNames := stringElems tarr
        UserName := un
        UserPassword := up
        SSID := ss
        TTLSInnerAuthentication := tt }) := by
  rw [wifi_parse_dict, hty]
  rw [parseWifiFields_ok d eap arr tarr un up ss tt heap hanch htls hun hup hss htt]
  rw [stringElems_eq_filterMap, stringElems_eq_filterMap]
  simp

/-- Witness for C6: both arrays contain non-string elements, which are
dropped while the strings survive in order. -/
theorem C6_lossy_string_arrays_witness :
    MobileconfWifi.parse (Value.dict wifiEntryFull) = some (Except.ok
      { PayloadCertificateAnchorUUID :=
          stringElems [Value.string "U1", Value.other, Value.string "U2"]
        TLSTrustedServerNames :=
          stringElems [Value.string "srv1", Value.data [7], Value.string "srv2"]
        UserName := "bob"
        UserPassword := "pw"
        SSID := "MySSID"
        TTLSInnerAuthentication := "PAP" }) :=
  C6_lossy_string_arrays wifiEntryFull eapFull
    [Value.string "U1", Value.other, Value.string "U2"]
    [Value.string "srv1", Value.data [7], Value.string "srv2"]
    "bob" "pw" "MySSID" "PAP" rfl rfl rfl rfl rfl rfl rfl rfl

/-- C7: for every TLS certificate entry whose binary `PayloadContent` bytes
are `b`, the parser succeeds, stores exactly the base64 re-encoding of `b`
(the bytes are never mutated), and base64-decoding the stored field yields
exactly `b` (round-trip law). -/
theorem C7_base64_roundtrip (d : List (String × Value)) (uuid : String)
    (b : List Nat)
    (hty : typeRejectsTLS d = false)
    (huuid : get_string d "PayloadUUID" = Except.ok uuid)
    (hdata : List.lookup "PayloadContent" d = some (Value.data b))
    (hb : ∀ x ∈ b, x < 256) :
    ∃ rec : MobileconfTLSCert,
      MobileconfTLSCert.parse (Value.dict d) = some (Except.ok rec) ∧
      rec.PayloadContent = b64encode b ∧
      b64decode rec.PayloadContent = some b := by
  refine ⟨{ PayloadUUID := uuid, PayloadContent := b64encode b }, ?_, rfl, ?_⟩
  · rw [tls_parse_dict, hty]
    rw [parseTLSFields_ok d uuid b huuid hdata]
    simp
  · exact b64decode_b64encode b hb

/-- Witness for C7: concrete bytes `[1, 2, 3, 255, 0]`. -/
theorem C7_base64_roundtrip_witness :
    ∃ rec : MobileconfTLSCert,
      MobileconfTLSCert.parse (Value.dict certEntry) = some (Except.ok rec) ∧
      rec.PayloadContent = b64encode [1, 2, 3, 255, 0] ∧
      b64decode rec.PayloadContent = some [1, 2, 3, 255, 0] :=
  C7_base64_roundtrip certEntry "uuid-1" [1, 2, 3, 255, 0] rfl rfl rfl (by decide)

/-- C8: a payload entry with no `PayloadType` key whose remaining fields
satisfy the Wi-Fi schema is still extracted successfully — the absent
discriminator does not cause rejection. -/
theorem C8_absent_discriminator_parses (d eap : List (String × Value))
    (arr : List Value) (un up ss tt : String)
    (hnotype : List.lookup "PayloadType" d = none)
    (heap : List.lookup "EAPClientConfiguration" d = some (Value.dict eap))
    (hanch : List.lookup "PayloadCertificateAnchorUUID" eap = some (Value.array arr))
    (htls : List.lookup "TLSTrustedServerNames" eap = none ∨
      ∃ tarr, List.lookup "TLSTrustedServerNames" eap = some (Value.array tarr))
    (hun : get_string eap "UserName" = Except.ok un)
    (hup : get_string eap "UserPassword" = Except.ok up)
    (hss : get_string d "SSID_STR" = Except.ok ss)
    (htt : get_string eap "TTLSInnerAuthentication" = Except.ok tt) :
    ∃ w, MobileconfWifi.parse (Value.dict d) = some (Except.ok w) := by
  rw [wifi_parse_dict, typeRejectsWifi_absent d hnotype]
  rcases htls with htls | ⟨tarr, htls⟩
  · refine ⟨{ PayloadCertificateAnchorUUID := arr.filterMap Value.as_string
              TLSTrustedServerNames := []
              UserName := un
              UserPassword := up
              SSID := ss
              TTLSInnerAuthentication := tt }, ?_⟩
    rw [parseWifiFields_ok_noTLS d eap arr un up ss tt heap hanch htls hun hup hss htt]
    simp
  · refine ⟨{ PayloadCertificateAnchorUUID := arr.filterMap Value.as_string
              TLSTrustedServerNames := tarr.filterMap Value.as_string
              UserName := un
              UserPassword := up
              SSID := ss
              TTLSInnerAuthentication := tt }, ?_⟩
    rw [parseWifiFields_ok d eap arr tarr un up ss tt heap hanch htls hun hup hss htt]
    simp

/-- Witness for C8: a valid Wi-Fi entry with the discriminator removed. -/
theorem C8_absent_discriminator_parses_witness :
    ∃ w, MobileconfWifi.parse (Value.dict wifiEntryNoType) = some (Except.ok w) :=
  C8_absent_discriminator_parses wifiEntryNoType eapNoTLS [Value.string "U1"]
    "bob" "pw" "MySSID" "PAP" rfl rfl rfl (Or.inl rfl) rfl rfl rfl rfl

/-- C9: `partition_results` is total and order-preserving: its two output
lists are exactly the order-preserving success and error projections of the
outcome sequence (nothing dropped, nothing duplicated), and their lengths
add up to the input length. -/
theorem C9_partition_total_ordered (A E : Type) (l : List (Except E A)) :
    partition_results l = (l.filterMap okPart, l.filterMap errPart) ∧
    (partition_results l).1.length + (partition_results l).2.length = l.length :=
  ⟨partition_results_eq l, partition_results_length l⟩

/-- C10: when `PayloadType` is present but holds a non-string node, both
record parsers treat the discriminator as if it were absent: neither rejects
the entry, and each proceeds to its full remaining-field extraction. -/
theorem C10_nonstring_discriminator (d : List (String × Value)) (pv : Value)
    (hpt : List.lookup "PayloadType" d = some pv)
    (hs : pv.as_string = none) :
    typeRejectsWifi d = false ∧ typeRejectsTLS d = false ∧
    MobileconfWifi.parse (Value.dict d) = some (parseWifiFields d) ∧
    MobileconfTLSCert.parse (Value.dict d) = some (parseTLSFields d) := by
  have h1 := typeRejectsWifi_nonstring d pv hpt hs
  have h2 := typeRejectsTLS_nonstring d pv hpt hs
  refine ⟨h1, h2, ?_, ?_⟩
  · rw [wifi_parse_dict, h1]
    simp
  · rw [tls_parse_dict, h2]
    simp

/-- Witness for C10: `PayloadType` holds an array. -/
theorem C10_nonstring_discriminator_witness :
    typeRejectsWifi entryNonStringType = false ∧
    typeRejectsTLS entryNonStringType = false ∧
    MobileconfWifi.parse (Value.dict entryNonStringType) =
      some (parseWifiFields entryNonStringType) ∧
    MobileconfTLSCert.parse (Value.dict entryNonStringType) =
      some (parseTLSFields entryNonStringType) :=
  C10_nonstring_discriminator entryNonStringType (Value.array []) rfl rfl

end Mobileconf
